import Mathlib

/-!
Shallow embedding of the `flet-extension` repository: the `FletExtension`
control binding (`src/flet_extension/flet_extension.py`) and the
`FletServiceExtension` service binding
(`src/flet_extension/flet_service_extension.py`).

Python floats used for durations, intervals and the like are modelled as
rationals; Python `int(x)` (truncation toward zero) is `py_int`.  Each
forwarding operation is modelled as a pure function from the binding state,
the arguments and an abstract remote invoker to an `Outcome`: the Python
return value or raised exception, the resulting binding state, the list of
remote invocations issued, and the diagnostics printed.
-/

namespace FletExt

/-- A single-quote character as a string, used to render Python
`repr`-style messages without quoting issues in this file. -/
def sqc : String := String.singleton (Char.ofNat 39)

/-- Python `int(x)` on a rational: truncation toward zero. -/
def py_int (q : ℚ) : ℤ := Int.sign q.num * ((q.num.natAbs / q.den : ℕ) : ℤ)

/-- Values that can appear in a remote call's argument mapping. -/
inductive Value where
  | null
  | str (s : String)
  | int (n : ℤ)
  | rat (q : ℚ)
  | bool (b : Bool)
  deriving Repr, DecidableEq

/-- Option-to-argument coercion: Python passes `None` through as a null
JSON-ish value in the argument mapping. -/
def opt_str_value : Option String → Value
  | none => Value.null
  | some s => Value.str s

/-- One remote invocation: method name, argument mapping (association
list in the order the Python dict literal builds it), and the timeout
argument when the call site passes one (`none` when the call site leaves
the invoker's default). -/
structure RemoteCall where
  method : String
  arguments : List (String × Value)
  timeout : Option ℚ
  deriving Repr, DecidableEq

/-- The abstract remote invoker (`_invoke_method` inherited from the
framework base classes, external to this repository): each invocation
either returns a value or fails with an exception text. -/
abbrev Invoker := RemoteCall → Except String Value

/-- Python exceptions this code can surface: a locally raised
`ValueError` (the spec's `InvalidArgument`) or a propagated remote
failure. -/
inductive PyError where
  | valueError (msg : String)
  | remoteError (e : String)
  deriving Repr, DecidableEq

deriving instance DecidableEq for Except

/-- The outcome of one operation on a binding with state type `σ`:
Python return value or exception, the state afterwards, the remote calls
issued (in order), and the diagnostics printed. -/
structure Outcome (σ : Type) where
  result : Except PyError Value
  state : σ
  calls : List RemoteCall
  diags : List String
  deriving Repr, DecidableEq

/-- The error component of a result, ignoring the returned value. -/
def err_part : Except PyError Value → Option PyError
  | Except.error e => some e
  | Except.ok _ => none

/-- Animation easing curves (`flet.AnimationCurve`); only `EASE_IN_OUT`
is mentioned by this code, the others stand for the rest of the enum. -/
inductive AnimationCurve where
  | easeInOut
  | linear
  | easeIn
  | easeOut
  | bounceIn
  | bounceOut
  deriving Repr, DecidableEq

/-- A `flet.Duration` in integer milliseconds as this code builds it. -/
structure Duration where
  milliseconds : ℤ
  deriving Repr, DecidableEq

/-- A `flet.Animation` descriptor as this code builds it. -/
structure Animation where
  duration : Duration
  curve : AnimationCurve
  deriving Repr, DecidableEq

/-- Opaque token standing for a registered event-handler callback. -/
abbrev Handler := Nat

/-- The state of a `FletExtension` control binding: one field per
declared property of the Python class. -/
structure FletExtension where
  src : Option String
  title : Option String
  subtitle : Option String
  background_color : Option String
  text_color : Option String
  border_radius : ℚ
  border_width : ℚ
  border_color : Option String
  padding : ℚ
  margin : ℚ
  animation_type : Option String
  animation_duration : ℚ
  animation_curve : Option AnimationCurve
  clickable : Bool
  elevation : ℚ
  opacity : ℚ
  on_click : Option Handler
  on_hover : Option Handler
  on_animation_complete : Option Handler
  animation : Option Animation
  custom_animation : Option Animation
  font_size : ℚ
  deriving Repr, DecidableEq

/-- The optional arguments of `FletExtension.__init__`; every parameter
defaults to `None`. -/
structure InitArgs where
  src : Option String := none
  title : Option String := none
  subtitle : Option String := none
  background_color : Option String := none
  text_color : Option String := none
  border_radius : Option ℚ := none
  border_width : Option ℚ := none
  border_color : Option String := none
  padding : Option ℚ := none
  margin : Option ℚ := none
  animation_type : Option String := none
  animation_duration : Option ℚ := none
  animation_curve : Option AnimationCurve := none
  clickable : Option Bool := none
  elevation : Option ℚ := none
  opacity : Option ℚ := none
  on_click : Option Handler := none
  on_hover : Option Handler := none
  on_animation_complete : Option Handler := none
  deriving Repr, DecidableEq

/-- `FletExtension.__init__` (flet_extension.py lines 95-120): install
each parameter or its documented default, then unconditionally set
`animation`, `custom_animation` and `font_size`, for which no parameter
exists. -/
def FletExtension.init (a : InitArgs) : FletExtension :=
  { src := a.src
    title := a.title
    subtitle := a.subtitle
    background_color := a.background_color
    text_color := a.text_color
    border_radius := a.border_radius.getD 8
    border_width := a.border_width.getD 0
    border_color := a.border_color
    padding := a.padding.getD 16
    margin := a.margin.getD 0
    animation_type := a.animation_type
    animation_duration := a.animation_duration.getD 1
    animation_curve := some (a.animation_curve.getD AnimationCurve.easeInOut)
    clickable := a.clickable.getD true
    elevation := a.elevation.getD 2
    opacity := a.opacity.getD 1
    on_click := a.on_click
    on_hover := a.on_hover
    on_animation_complete := a.on_animation_complete
    animation := none
    custom_animation := none
    font_size := 14 }

/-- The valid animation types (`valid_types` in both trigger forms). -/
def valid_types : List String := ["fade", "scale", "slide", "rotate"]

/-- Python `repr` of a string: the string between single quotes. -/
def py_str_repr (s : String) : String := sqc ++ s ++ sqc

/-- Python `repr` of a list of strings, as an f-string renders
`valid_types`. -/
def py_list_repr (l : List String) : String :=
  "[" ++ String.intercalate ", " (l.map py_str_repr) ++ "]"

/-- The `ValueError` message both trigger forms raise for an invalid
animation type. -/
def invalid_animation_msg (animation_type : String) : String :=
  "Invalid animation_type " ++ py_str_repr animation_type
    ++ ". Must be one of: " ++ py_list_repr valid_types

/-- The diagnostic both trigger forms print before re-raising a remote
failure. -/
def debug_trigger_msg (animation_type : String) (e : String) : String :=
  "Debug: Failed to trigger animation " ++ py_str_repr animation_type ++ ": " ++ e

/-- The diagnostic both update-content forms print before re-raising. -/
def debug_update_msg (e : String) : String :=
  "Debug: Failed to update content: " ++ e

/-- The default animation descriptor synthesized when no
`custom_animation` is supplied:
`Animation(duration=Duration(milliseconds=int(self.animation_duration * 1000)), curve=self.animation_curve or AnimationCurve.EASE_IN_OUT)`. -/
def synth_animation (self : FletExtension) : Animation :=
  { duration := { milliseconds := py_int (self.animation_duration * 1000) }
    curve := self.animation_curve.getD AnimationCurve.easeInOut }

/-- `FletExtension.trigger_animation_async` (flet_extension.py lines
342-394): validate the animation type, synthesize the descriptor when
none is given, store it into `custom_animation`, invoke the remote
method and return its result, re-raising a remote failure after a
diagnostic. -/
def FletExtension.trigger_animation_async (invoker : Invoker)
    (self : FletExtension) (animation_type : String)
    (custom_animation : Option Animation) : Outcome FletExtension :=
  if animation_type ∉ valid_types then
    { result := Except.error (PyError.valueError (invalid_animation_msg animation_type))
      state := self, calls := [], diags := [] }
  else
    let ca : Animation :=
      match custom_animation with
      | none => synth_animation self
      | some c => c
    let self2 := { self with custom_animation := some ca }
    let call : RemoteCall :=
      { method := "trigger_animation"
        arguments := [("animation_type", Value.str animation_type)]
        timeout := none }
    match invoker call with
    | Except.ok v =>
        { result := Except.ok v, state := self2, calls := [call], diags := [] }
    | Except.error e =>
        { result := Except.error (PyError.remoteError e), state := self2
          calls := [call], diags := [debug_trigger_msg animation_type e] }

/-- `FletExtension.trigger_animation` (flet_extension.py lines 444-497):
the synchronous form; identical validation and dispatch, but the remote
result is not returned (the Python function returns `None`). -/
def FletExtension.trigger_animation (invoker : Invoker)
    (self : FletExtension) (animation_type : String)
    (custom_animation : Option Animation) : Outcome FletExtension :=
  if animation_type ∉ valid_types then
    { result := Except.error (PyError.valueError (invalid_animation_msg animation_type))
      state := self, calls := [], diags := [] }
  else
    let ca : Animation :=
      match custom_animation with
      | none => synth_animation self
      | some c => c
    let self2 := { self with custom_animation := some ca }
    let call : RemoteCall :=
      { method := "trigger_animation"
        arguments := [("animation_type", Value.str animation_type)]
        timeout := none }
    match invoker call with
    | Except.ok _ =>
        { result := Except.ok Value.null, state := self2, calls := [call], diags := [] }
    | Except.error e =>
        { result := Except.error (PyError.remoteError e), state := self2
          calls := [call], diags := [debug_trigger_msg animation_type e] }

/-- `FletExtension.update_content_async` (flet_extension.py lines
396-440): echo each non-null argument into the mirrored property, then
invoke the remote method with all three keys (nulls included), returning
its result, re-raising a remote failure after a diagnostic. -/
def FletExtension.update_content_async (invoker : Invoker)
    (self : FletExtension) (src : Option String) (title : Option String)
    (subtitle : Option String) : Outcome FletExtension :=
  let self2 :=
    match src with
    | some s => { self with src := some s }
    | none => self
  let self3 :=
    match title with
    | some t => { self2 with title := some t }
    | none => self2
  let self4 :=
    match subtitle with
    | some st => { self3 with subtitle := some st }
    | none => self3
  let call : RemoteCall :=
    { method := "update_content"
      arguments := [("src", opt_str_value src), ("title", opt_str_value title),
        ("subtitle", opt_str_value subtitle)]
      timeout := none }
  match invoker call with
  | Except.ok v =>
      { result := Except.ok v, state := self4, calls := [call], diags := [] }
  | Except.error e =>
      { result := Except.error (PyError.remoteError e), state := self4
        calls := [call], diags := [debug_update_msg e] }

/-- `FletExtension.update_content` (flet_extension.py lines 499-544):
the synchronous form; identical echo and dispatch, remote result not
returned. -/
def FletExtension.update_content (invoker : Invoker)
    (self : FletExtension) (src : Option String) (title : Option String)
    (subtitle : Option String) : Outcome FletExtension :=
  let self2 :=
    match src with
    | some s => { self with src := some s }
    | none => self
  let self3 :=
    match title with
    | some t => { self2 with title := some t }
    | none => self2
  let self4 :=
    match subtitle with
    | some st => { self3 with subtitle := some st }
    | none => self3
  let call : RemoteCall :=
    { method := "update_content"
      arguments := [("src", opt_str_value src), ("title", opt_str_value title),
        ("subtitle", opt_str_value subtitle)]
      timeout := none }
  match invoker call with
  | Except.ok _ =>
      { result := Except.ok Value.null, state := self4, calls := [call], diags := [] }
  | Except.error e =>
      { result := Except.error (PyError.remoteError e), state := self4
        calls := [call], diags := [debug_update_msg e] }

/-- The state of a `FletServiceExtension` service binding: one field per
declared property of the Python class
(flet_service_extension.py lines 28-61). -/
structure FletServiceExtension where
  auto_start : Bool
  interval : ℚ
  max_count : ℤ
  on_status_change : Option Handler
  on_counter_update : Option Handler
  on_error : Option Handler
  deriving Repr, DecidableEq

/-- The `FletServiceExtension` built by the dataclass field defaults:
`auto_start=False`, `interval=1.0`, `max_count=10`, no handlers. -/
def FletServiceExtension.default : FletServiceExtension :=
  { auto_start := false, interval := 1, max_count := 10
    on_status_change := none, on_counter_update := none, on_error := none }

/-- Run one remote invocation that is returned directly (no try/except
around it, as in every `FletServiceExtension` async method). -/
def plain_invoke (invoker : Invoker) (self : FletServiceExtension)
    (call : RemoteCall) : Outcome FletServiceExtension :=
  match invoker call with
  | Except.ok v =>
      { result := Except.ok v, state := self, calls := [call], diags := [] }
  | Except.error e =>
      { result := Except.error (PyError.remoteError e), state := self
        calls := [call], diags := [] }

/-- `start_service_async` (flet_service_extension.py lines 64-85): send
`{interval: custom_interval or current self.interval}`. -/
def FletServiceExtension.start_service_async (invoker : Invoker)
    (self : FletServiceExtension) (custom_interval : Option ℚ)
    (timeout : Option ℚ) : Outcome FletServiceExtension :=
  plain_invoke invoker self
    { method := "start_service"
      arguments := [("interval", Value.rat (custom_interval.getD self.interval))]
      timeout := timeout }

/-- `stop_service_async` (lines 87-97): no arguments. -/
def FletServiceExtension.stop_service_async (invoker : Invoker)
    (self : FletServiceExtension) (timeout : Option ℚ) :
    Outcome FletServiceExtension :=
  plain_invoke invoker self
    { method := "stop_service", arguments := [], timeout := timeout }

/-- `pause_service_async` (lines 99-109): no arguments. -/
def FletServiceExtension.pause_service_async (invoker : Invoker)
    (self : FletServiceExtension) (timeout : Option ℚ) :
    Outcome FletServiceExtension :=
  plain_invoke invoker self
    { method := "pause_service", arguments := [], timeout := timeout }

/-- `get_status_async` (lines 111-121): no arguments. -/
def FletServiceExtension.get_status_async (invoker : Invoker)
    (self : FletServiceExtension) (timeout : Option ℚ) :
    Outcome FletServiceExtension :=
  plain_invoke invoker self
    { method := "get_status", arguments := [], timeout := timeout }

/-- `get_counter_async` (lines 123-133): no arguments. -/
def FletServiceExtension.get_counter_async (invoker : Invoker)
    (self : FletServiceExtension) (timeout : Option ℚ) :
    Outcome FletServiceExtension :=
  plain_invoke invoker self
    { method := "get_counter", arguments := [], timeout := timeout }

/-- `reset_counter_async` (lines 135-145): no arguments. -/
def FletServiceExtension.reset_counter_async (invoker : Invoker)
    (self : FletServiceExtension) (timeout : Option ℚ) :
    Outcome FletServiceExtension :=
  plain_invoke invoker self
    { method := "reset_counter", arguments := [], timeout := timeout }

/-- `set_configuration_async` (lines 147-172): build the config mapping
with only the supplied (non-null) keys, `interval` first. -/
def FletServiceExtension.set_configuration_async (invoker : Invoker)
    (self : FletServiceExtension) (interval : Option ℚ)
    (max_count : Option ℤ) (timeout : Option ℚ) :
    Outcome FletServiceExtension :=
  let config : List (String × Value) :=
    (match interval with
     | some i => [("interval", Value.rat i)]
     | none => []) ++
    (match max_count with
     | some m => [("max_count", Value.int m)]
     | none => [])
  plain_invoke invoker self
    { method := "set_configuration", arguments := config, timeout := timeout }

/-- `trigger_custom_event_async` (lines 174-192): send
`{event_name, data}`; the `data` dict is modelled as an opaque value. -/
def FletServiceExtension.trigger_custom_event_async (invoker : Invoker)
    (self : FletServiceExtension) (event_name : String) (data : Value)
    (timeout : Option ℚ) : Outcome FletServiceExtension :=
  plain_invoke invoker self
    { method := "trigger_custom_event"
      arguments := [("event_name", Value.str event_name), ("data", data)]
      timeout := timeout }

/-- A detached task created by `asyncio.create_task`: the eventual
outcome of the underlying suspending call, which the fire-and-forget
caller never observes. -/
structure SpawnedTask where
  outcome : Outcome FletServiceExtension
  deriving Repr, DecidableEq

/-- `start_service` (lines 195-201): synchronous fire-and-forget form;
spawns the async call detached, returning nothing to the caller. -/
def FletServiceExtension.start_service (invoker : Invoker)
    (self : FletServiceExtension) (custom_interval : Option ℚ)
    (timeout : Option ℚ) : SpawnedTask :=
  { outcome := FletServiceExtension.start_service_async invoker self custom_interval timeout }

/-- `stop_service` (lines 203-207): synchronous fire-and-forget form. -/
def FletServiceExtension.stop_service (invoker : Invoker)
    (self : FletServiceExtension) (timeout : Option ℚ) : SpawnedTask :=
  { outcome := FletServiceExtension.stop_service_async invoker self timeout }

/-- `pause_service` (lines 209-213): synchronous fire-and-forget form. -/
def FletServiceExtension.pause_service (invoker : Invoker)
    (self : FletServiceExtension) (timeout : Option ℚ) : SpawnedTask :=
  { outcome := FletServiceExtension.pause_service_async invoker self timeout }

/-- `reset_counter` (lines 215-219): synchronous fire-and-forget form. -/
def FletServiceExtension.reset_counter (invoker : Invoker)
    (self : FletServiceExtension) (timeout : Option ℚ) : SpawnedTask :=
  { outcome := FletServiceExtension.reset_counter_async invoker self timeout }

/-- One row of the operation table of `FletServiceExtension`: the
operation's name, its remote method, and whether the class declares a
synchronous fire-and-forget wrapper for it
(flet_service_extension.py lines 194-219 declare exactly `start_service`,
`stop_service`, `pause_service` and `reset_counter`). -/
structure ServiceOp where
  name : String
  remote_method : String
  has_sync_form : Bool
  deriving Repr, DecidableEq

/-- The eight operations of `FletServiceExtension`, in source order; each
has a suspending (`_async`) form, and `has_sync_form` records which also
have a synchronous fire-and-forget wrapper. -/
def service_ops : List ServiceOp :=
  [ { name := "start", remote_method := "start_service", has_sync_form := true }
  , { name := "stop", remote_method := "stop_service", has_sync_form := true }
  , { name := "pause", remote_method := "pause_service", has_sync_form := true }
  , { name := "get_status", remote_method := "get_status", has_sync_form := false }
  , { name := "get_counter", remote_method := "get_counter", has_sync_form := false }
  , { name := "reset_counter", remote_method := "reset_counter", has_sync_form := true }
  , { name := "set_configuration", remote_method := "set_configuration", has_sync_form := false }
  , { name := "trigger_custom_event", remote_method := "trigger_custom_event", has_sync_form := false } ]

/-- A `FletExtension` constructed with no overrides, used as a concrete
binding instance in witnesses. -/
def default_ext : FletExtension := FletExtension.init {}

/-- A remote invoker that always succeeds with `True`, used as a
concrete invoker in witnesses. -/
def ok_invoker : Invoker := fun _ => Except.ok (Value.bool true)

/-- A remote invoker that always fails with the exception text `boom`,
used as a concrete invoker in witnesses. -/
def fail_invoker : Invoker := fun _ => Except.error "boom"

/-! Helper lemmas shared by the claims below. -/

/-- Both branches of `plain_invoke` record exactly the call issued. -/
theorem plain_invoke_calls (inv : Invoker) (self : FletServiceExtension)
    (c : RemoteCall) : (plain_invoke inv self c).calls = [c] := by
  unfold plain_invoke
  split <;> rfl

/-- `plain_invoke` never mutates the service state. -/
theorem plain_invoke_state (inv : Invoker) (self : FletServiceExtension)
    (c : RemoteCall) : (plain_invoke inv self c).state = self := by
  unfold plain_invoke
  split <;> rfl

/-- The state written by both update-content forms: each non-null
argument overwrites its mirrored property, null leaves it unchanged. -/
def content_echo (self : FletExtension)
    (src title subtitle : Option String) : FletExtension :=
  { self with
      src := match src with
        | some v => some v
        | none => self.src
      title := match title with
        | some v => some v
        | none => self.title
      subtitle := match subtitle with
        | some v => some v
        | none => self.subtitle }

/-- The single remote call both update-content forms issue: all three
keys, nulls included. -/
def content_call (src title subtitle : Option String) : RemoteCall :=
  { method := "update_content"
    arguments := [("src", opt_str_value src), ("title", opt_str_value title),
      ("subtitle", opt_str_value subtitle)]
    timeout := none }

/-- The async update-content form echoes non-null arguments and issues
exactly the three-key call. -/
theorem update_content_async_parts (inv : Invoker) (self : FletExtension)
    (src title subtitle : Option String) :
    (FletExtension.update_content_async inv self src title subtitle).state =
      content_echo self src title subtitle ∧
    (FletExtension.update_content_async inv self src title subtitle).calls =
      [content_call src title subtitle] := by
  unfold FletExtension.update_content_async content_echo content_call
  cases src <;> cases title <;> cases subtitle <;>
    exact ⟨by dsimp only; split <;> rfl, by dsimp only; split <;> rfl⟩

/-- The sync update-content form echoes non-null arguments and issues
exactly the three-key call. -/
theorem update_content_sync_parts (inv : Invoker) (self : FletExtension)
    (src title subtitle : Option String) :
    (FletExtension.update_content inv self src title subtitle).state =
      content_echo self src title subtitle ∧
    (FletExtension.update_content inv self src title subtitle).calls =
      [content_call src title subtitle] := by
  unfold FletExtension.update_content content_echo content_call
  cases src <;> cases title <;> cases subtitle <;>
    exact ⟨by dsimp only; split <;> rfl, by dsimp only; split <;> rfl⟩

/-! The claims. -/

/-- Claim C1: for every binding instance and every string outside
{fade, scale, slide, rotate}, both forms of `trigger_animation` fail
with the `ValueError` whose message enumerates the valid set, issue zero
remote calls, print nothing, and leave the binding state — the mirrored
`custom_animation` included — unmodified. -/
theorem claim1_invalid_type_rejected (inv : Invoker) (self : FletExtension)
    (t : String) (ca : Option Animation) (h : t ∉ valid_types) :
    FletExtension.trigger_animation_async inv self t ca =
      { result := Except.error (PyError.valueError
          ("Invalid animation_type " ++ py_str_repr t ++ ". Must be one of: "
            ++ ("[" ++ py_str_repr "fade" ++ ", " ++ py_str_repr "scale" ++ ", "
              ++ py_str_repr "slide" ++ ", " ++ py_str_repr "rotate" ++ "]")))
        state := self, calls := [], diags := [] } ∧
    FletExtension.trigger_animation inv self t ca =
      { result := Except.error (PyError.valueError
          ("Invalid animation_type " ++ py_str_repr t ++ ". Must be one of: "
            ++ ("[" ++ py_str_repr "fade" ++ ", " ++ py_str_repr "scale" ++ ", "
              ++ py_str_repr "slide" ++ ", " ++ py_str_repr "rotate" ++ "]")))
        state := self, calls := [], diags := [] } := by
  constructor
  · unfold FletExtension.trigger_animation_async
    rw [if_pos h]
    unfold invalid_animation_msg
    rw [show py_list_repr valid_types = "[" ++ py_str_repr "fade" ++ ", "
      ++ py_str_repr "scale" ++ ", " ++ py_str_repr "slide" ++ ", "
      ++ py_str_repr "rotate" ++ "]" from rfl]
  · unfold FletExtension.trigger_animation
    rw [if_pos h]
    unfold invalid_animation_msg
    rw [show py_list_repr valid_types = "[" ++ py_str_repr "fade" ++ ", "
      ++ py_str_repr "scale" ++ ", " ++ py_str_repr "slide" ++ ", "
      ++ py_str_repr "rotate" ++ "]" from rfl]

/-- Claim C1 witness: the string `bounce` is rejected by the async form
on a concrete binding with no remote call and no state change. -/
theorem claim1_witness :
    "bounce" ∉ valid_types ∧
    FletExtension.trigger_animation_async ok_invoker default_ext "bounce" none =
      { result := Except.error (PyError.valueError
          ("Invalid animation_type " ++ py_str_repr "bounce" ++ ". Must be one of: "
            ++ ("[" ++ py_str_repr "fade" ++ ", " ++ py_str_repr "scale" ++ ", "
              ++ py_str_repr "slide" ++ ", " ++ py_str_repr "rotate" ++ "]")))
        state := default_ext, calls := [], diags := [] } :=
  ⟨by decide,
   (claim1_invalid_type_rejected ok_invoker default_ext "bounce" none (by decide)).left⟩

/-- Claim C2: for every binding instance, a valid trigger with no
`custom_animation` supplied stores a descriptor whose integer
millisecond duration is the truncation `py_int` of
`animation_duration * 1000` and whose curve is the current
`animation_curve`, defaulting to ease-in-out when unset — in both
forms. -/
theorem claim2_default_descriptor (inv : Invoker) (self : FletExtension)
    (t : String) (h : t ∈ valid_types) :
    (FletExtension.trigger_animation_async inv self t none).state.custom_animation =
      some { duration := { milliseconds := py_int (self.animation_duration * 1000) }
             curve := self.animation_curve.getD AnimationCurve.easeInOut } ∧
    (FletExtension.trigger_animation inv self t none).state.custom_animation =
      some { duration := { milliseconds := py_int (self.animation_duration * 1000) }
             curve := self.animation_curve.getD AnimationCurve.easeInOut } := by
  have h2 : ¬ t ∉ valid_types := not_not_intro h
  constructor
  · unfold FletExtension.trigger_animation_async
    rw [if_neg h2]
    cases hinv : inv ⟨"trigger_animation", [("animation_type", Value.str t)], none⟩ <;>
      simp [hinv, synth_animation]
  · unfold FletExtension.trigger_animation
    rw [if_neg h2]
    cases hinv : inv ⟨"trigger_animation", [("animation_type", Value.str t)], none⟩ <;>
      simp [hinv, synth_animation]

/-- Claim C2 witness: with `animation_duration = 0.5` the stored
descriptor has 500 ms; with `2.0`, 2000 ms; with `0.0015` seconds the
millisecond value is truncated to 1, not rounded to 2. -/
theorem claim2_witness :
    "fade" ∈ valid_types ∧
    (FletExtension.trigger_animation_async ok_invoker
        { default_ext with animation_duration := 1/2 } "fade" none).state.custom_animation =
      some { duration := { milliseconds := 500 }, curve := AnimationCurve.easeInOut } ∧
    (FletExtension.trigger_animation ok_invoker
        { default_ext with animation_duration := 2 } "fade" none).state.custom_animation =
      some { duration := { milliseconds := 2000 }, curve := AnimationCurve.easeInOut } ∧
    (FletExtension.trigger_animation_async ok_invoker
        { default_ext with animation_duration := 3/2000 } "fade" none).state.custom_animation =
      some { duration := { milliseconds := 1 }, curve := AnimationCurve.easeInOut } := by
  refine ⟨by decide, ?_, ?_, ?_⟩
  · rw [(claim2_default_descriptor ok_invoker
      { default_ext with animation_duration := 1/2 } "fade" (by decide)).left]
    norm_num [py_int, Int.sign, default_ext, FletExtension.init]
  · rw [(claim2_default_descriptor ok_invoker
      { default_ext with animation_duration := 2 } "fade" (by decide)).right]
    norm_num [py_int, Int.sign, default_ext, FletExtension.init]
  · rw [(claim2_default_descriptor ok_invoker
      { default_ext with animation_duration := 3/2000 } "fade" (by decide)).left]
    norm_num [py_int, Int.sign, default_ext, FletExtension.init]

/-- Claim C8: a `FletExtension` constructed with no overrides carries
every documented default, and likewise `FletServiceExtension`. -/
theorem claim8_default_properties :
    (FletExtension.init {}).src = none ∧
    (FletExtension.init {}).title = none ∧
    (FletExtension.init {}).subtitle = none ∧
    (FletExtension.init {}).background_color = none ∧
    (FletExtension.init {}).text_color = none ∧
    (FletExtension.init {}).border_color = none ∧
    (FletExtension.init {}).animation_type = none ∧
    (FletExtension.init {}).border_radius = 8 ∧
    (FletExtension.init {}).border_width = 0 ∧
    (FletExtension.init {}).padding = 16 ∧
    (FletExtension.init {}).margin = 0 ∧
    (FletExtension.init {}).font_size = 14 ∧
    (FletExtension.init {}).animation_duration = 1 ∧
    (FletExtension.init {}).animation_curve = some AnimationCurve.easeInOut ∧
    (FletExtension.init {}).clickable = true ∧
    (FletExtension.init {}).elevation = 2 ∧
    (FletExtension.init {}).opacity = 1 ∧
    FletServiceExtension.default.auto_start = false ∧
    FletServiceExtension.default.interval = 1 ∧
    FletServiceExtension.default.max_count = 10 := by
  exact ⟨rfl, rfl, rfl, rfl, rfl, rfl, rfl, rfl, rfl, rfl, rfl, rfl, rfl, rfl,
    rfl, rfl, rfl, rfl, rfl, rfl⟩

/-- Claim C9: whatever constructor arguments are supplied, construction
forces `animation` and `custom_animation` to null and `font_size` to
14.0; `InitArgs` has no parameter for any of the three. -/
theorem claim9_forced_fields (a : InitArgs) :
    (FletExtension.init a).animation = none ∧
    (FletExtension.init a).custom_animation = none ∧
    (FletExtension.init a).font_size = 14 :=
  ⟨rfl, rfl, rfl⟩

/-- Claim C10: calling either update-content form with all three
arguments null mutates nothing locally yet still issues the remote call
with the mapping of three explicit nulls. -/
theorem claim10_null_update (inv : Invoker) (self : FletExtension) :
    (FletExtension.update_content_async inv self none none none).state = self ∧
    (FletExtension.update_content inv self none none none).state = self ∧
    (FletExtension.update_content_async inv self none none none).calls =
      [{ method := "update_content"
         arguments := [("src", Value.null), ("title", Value.null),
           ("subtitle", Value.null)]
         timeout := none }] ∧
    (FletExtension.update_content inv self none none none).calls =
      [{ method := "update_content"
         arguments := [("src", Value.null), ("title", Value.null),
           ("subtitle", Value.null)]
         timeout := none }] := by
  refine ⟨?_, ?_, ?_, ?_⟩
  · exact (update_content_async_parts inv self none none none).left
  · exact (update_content_sync_parts inv self none none none).left
  · exact (update_content_async_parts inv self none none none).right
  · exact (update_content_sync_parts inv self none none none).right

/-- Claim C3: for every binding instance and combination of optional
arguments, both update-content forms write each non-null argument to its
mirrored property, leave the properties of null arguments unchanged,
and issue one remote `update_content` call carrying all three keys with
the supplied values, nulls included; in particular `src := "A"` alone
echoes only `src` and sends `{src: "A", title: null, subtitle: null}`. -/
theorem claim3_update_content_mapping (inv : Invoker) (self : FletExtension)
    (src title subtitle : Option String) :
    (FletExtension.update_content_async inv self src title subtitle).state =
      content_echo self src title subtitle ∧
    (FletExtension.update_content inv self src title subtitle).state =
      content_echo self src title subtitle ∧
    (content_echo self src title subtitle).src =
      (match src with
       | some v => some v
       | none => self.src) ∧
    (content_echo self src title subtitle).title =
      (match title with
       | some v => some v
       | none => self.title) ∧
    (content_echo self src title subtitle).subtitle =
      (match subtitle with
       | some v => some v
       | none => self.subtitle) ∧
    (FletExtension.update_content_async inv self src title subtitle).calls =
      [⟨"update_content", [("src", opt_str_value src), ("title", opt_str_value title),
        ("subtitle", opt_str_value subtitle)], none⟩] ∧
    (FletExtension.update_content inv self src title subtitle).calls =
      [⟨"update_content", [("src", opt_str_value src), ("title", opt_str_value title),
        ("subtitle", opt_str_value subtitle)], none⟩] ∧
    (FletExtension.update_content inv self (some "A") none none).state.src =
      some "A" ∧
    (FletExtension.update_content inv self (some "A") none none).state.title =
      self.title ∧
    (FletExtension.update_content inv self (some "A") none none).state.subtitle =
      self.subtitle ∧
    (FletExtension.update_content inv self (some "A") none none).calls =
      [⟨"update_content", [("src", Value.str "A"), ("title", Value.null),
        ("subtitle", Value.null)], none⟩] := by
  refine ⟨(update_content_async_parts inv self src title subtitle).left,
    (update_content_sync_parts inv self src title subtitle).left,
    rfl, rfl, rfl,
    ?_, ?_, ?_, ?_, ?_, ?_⟩
  · rw [(update_content_async_parts inv self src title subtitle).right]
    rfl
  · rw [(update_content_sync_parts inv self src title subtitle).right]
    rfl
  · rw [(update_content_sync_parts inv self (some "A") none none).left]
    rfl
  · rw [(update_content_sync_parts inv self (some "A") none none).left]
    rfl
  · rw [(update_content_sync_parts inv self (some "A") none none).left]
    rfl
  · rw [(update_content_sync_parts inv self (some "A") none none).right]
    rfl

/-- Claim C4: `set_configuration` sends exactly the supplied keys —
`interval`, then `max_count`, each present iff its argument is non-null
— omitting the rest; `max_count := 5` alone sends just that key, and no
arguments sends an empty mapping. -/
theorem claim4_set_configuration_subset (inv : Invoker)
    (self : FletServiceExtension) (i : Option ℚ) (m : Option ℤ)
    (tmo : Option ℚ) :
    (FletServiceExtension.set_configuration_async inv self i m tmo).calls =
      [⟨"set_configuration",
        (match i with
         | some v => [("interval", Value.rat v)]
         | none => []) ++
        (match m with
         | some v => [("max_count", Value.int v)]
         | none => []), tmo⟩] ∧
    ((FletServiceExtension.set_configuration_async inv self i m tmo).calls.map
      fun c => c.arguments.lookup "interval") = [i.map Value.rat] ∧
    ((FletServiceExtension.set_configuration_async inv self i m tmo).calls.map
      fun c => c.arguments.lookup "max_count") = [m.map Value.int] ∧
    (FletServiceExtension.set_configuration_async inv self none (some 5) tmo).calls =
      [⟨"set_configuration", [("max_count", Value.int 5)], tmo⟩] ∧
    (FletServiceExtension.set_configuration_async inv self none none tmo).calls =
      [⟨"set_configuration", [], tmo⟩] := by
  unfold FletServiceExtension.set_configuration_async
  refine ⟨?_, ?_, ?_, ?_, ?_⟩ <;>
    rw [plain_invoke_calls] <;>
    cases i <;> cases m <;> simp [List.lookup]

/-- Claim C5 counterexample: the eight service operations do not have
exactly five synchronous fire-and-forget forms — the source declares
four. -/
theorem claim5_counterexample :
    service_ops.length = 8 ∧
    (service_ops.filter (fun op => op.has_sync_form)).length = 4 ∧
    ¬ (service_ops.filter (fun op => op.has_sync_form)).length = 5 := by
  decide

/-- Claim C5 amended: each of the eight service operations has a
suspending form, and exactly four of them — start, stop, pause and
reset_counter — also have a fire-and-forget form, each spawning its
suspending counterpart detached with the outcome invisible to the
caller. -/
theorem claim5_amended_four_sync_forms (inv : Invoker)
    (self : FletServiceExtension) (ci : Option ℚ) (tmo : Option ℚ) :
    service_ops.map (fun op => op.name) =
      ["start", "stop", "pause", "get_status", "get_counter",
       "reset_counter", "set_configuration", "trigger_custom_event"] ∧
    (service_ops.filter (fun op => op.has_sync_form)).map (fun op => op.name) =
      ["start", "stop", "pause", "reset_counter"] ∧
    (FletServiceExtension.start_service inv self ci tmo).outcome =
      FletServiceExtension.start_service_async inv self ci tmo ∧
    (FletServiceExtension.stop_service inv self tmo).outcome =
      FletServiceExtension.stop_service_async inv self tmo ∧
    (FletServiceExtension.pause_service inv self tmo).outcome =
      FletServiceExtension.pause_service_async inv self tmo ∧
    (FletServiceExtension.reset_counter inv self tmo).outcome =
      FletServiceExtension.reset_counter_async inv self tmo :=
  ⟨by decide, by decide, rfl, rfl, rfl, rfl⟩

/-- Claim C6: on every input, the suspending and the synchronous forms
of `trigger_animation` agree on the resulting state (the mirrored
`custom_animation` write included), the remote calls issued, the
diagnostics, and the error raised, differing at most in the returned
value. -/
theorem claim6_sync_async_agree (inv : Invoker) (self : FletExtension)
    (t : String) (ca : Option Animation) :
    (FletExtension.trigger_animation_async inv self t ca).state =
      (FletExtension.trigger_animation inv self t ca).state ∧
    (FletExtension.trigger_animation_async inv self t ca).calls =
      (FletExtension.trigger_animation inv self t ca).calls ∧
    (FletExtension.trigger_animation_async inv self t ca).diags =
      (FletExtension.trigger_animation inv self t ca).diags ∧
    err_part (FletExtension.trigger_animation_async inv self t ca).result =
      err_part (FletExtension.trigger_animation inv self t ca).result := by
  unfold FletExtension.trigger_animation_async FletExtension.trigger_animation
  by_cases h : t ∉ valid_types
  · rw [if_pos h, if_pos h]
    exact ⟨rfl, rfl, rfl, rfl⟩
  · rw [if_neg h, if_neg h]
    cases hinv : inv ⟨"trigger_animation", [("animation_type", Value.str t)], none⟩ <;>
      simp [hinv, err_part]

/-- Claim C7: when a valid trigger's remote invocation fails, both forms
re-raise the failure after emitting the diagnostic, the call was issued,
and the mirrored `custom_animation` write — the supplied descriptor, or
the synthesized one — is not rolled back. -/
theorem claim7_failure_propagation (inv : Invoker) (self : FletExtension)
    (t : String) (ca : Option Animation) (e : String) (h : t ∈ valid_types)
    (hf : inv ⟨"trigger_animation", [("animation_type", Value.str t)], none⟩ =
      Except.error e) :
    (FletExtension.trigger_animation_async inv self t ca).result =
      Except.error (PyError.remoteError e) ∧
    (FletExtension.trigger_animation inv self t ca).result =
      Except.error (PyError.remoteError e) ∧
    (FletExtension.trigger_animation_async inv self t ca).diags =
      [debug_trigger_msg t e] ∧
    (FletExtension.trigger_animation inv self t ca).diags =
      [debug_trigger_msg t e] ∧
    (FletExtension.trigger_animation_async inv self t ca).state.custom_animation =
      some (match ca with
            | some c => c
            | none => synth_animation self) ∧
    (FletExtension.trigger_animation inv self t ca).state.custom_animation =
      some (match ca with
            | some c => c
            | none => synth_animation self) ∧
    (FletExtension.trigger_animation_async inv self t ca).calls =
      [⟨"trigger_animation", [("animation_type", Value.str t)], none⟩] ∧
    (FletExtension.trigger_animation inv self t ca).calls =
      [⟨"trigger_animation", [("animation_type", Value.str t)], none⟩] := by
  have h2 : ¬ t ∉ valid_types := not_not_intro h
  unfold FletExtension.trigger_animation_async FletExtension.trigger_animation
  rw [if_neg h2, if_neg h2]
  cases ca <;> simp [hf]

/-- Claim C7 witness: with a concrete always-failing invoker, a valid
`fade` trigger on a default binding propagates the failure, emits the
diagnostic, and retains the synthesized descriptor. -/
theorem claim7_witness :
    "fade" ∈ valid_types ∧
    fail_invoker ⟨"trigger_animation", [("animation_type", Value.str "fade")], none⟩ =
      Except.error "boom" ∧
    (FletExtension.trigger_animation_async fail_invoker default_ext "fade" none).result =
      Except.error (PyError.remoteError "boom") ∧
    (FletExtension.trigger_animation_async fail_invoker default_ext "fade" none).state.custom_animation =
      some (synth_animation default_ext) ∧
    (FletExtension.trigger_animation_async fail_invoker default_ext "fade" none).diags =
      [debug_trigger_msg "fade" "boom"] := by
  have H := claim7_failure_propagation fail_invoker default_ext "fade" none "boom"
    (by decide) rfl
  exact ⟨by decide, rfl, H.1, H.2.2.2.2.1, H.2.2.1⟩

end FletExt
